import Mathlib

/-!
Shallow embedding of the SIP honeypot module
`modules/python/scripts/sip/__init__.py` of CZ-NIC/dionaea, restricted to
the session / call state-machine logic: the `SipCall` call transaction,
the `SipSession` method handlers (`handle_REGISTER`, `handle_INVITE`,
`handle_ACK`, `handle_CANCEL`, `handle_io_in`) and the process-wide
`RegistrationManager`.

Modelling conventions:
- Python dictionaries (`SipSession._callids`, `RegistrationManager._users`)
  become association lists that preserve insertion order, matching the
  insert/replace/delete semantics of `dict`.
- `self.send(msg.dumps())` becomes appending a `Response` record (status
  code, the request the response was created from, and the attached
  WWW-Authenticate challenge if any) to an output list.
- Timers (`pyev.Timer`) become an `Option ℚ` field: `some d` when the
  invite-handler timer is armed with delay `d` seconds, `none` when it is
  stopped or has fired without being re-armed.
- A Python exception that escapes a handler is modelled with `Except`:
  `.error e` means the handler raised `e` and the exception propagated to
  the caller (no return value).
- `random.randint(a, b)` becomes an explicit oracle `rng : Nat → Nat → Nat`
  passed to the timer callback; Python's `randint` is inclusive on both
  ends, which is stated as a hypothesis where needed.
-/

deriving instance DecidableEq for Except

namespace DionaeaSip

/-- Python exceptions that the modelled code can raise. -/
inductive PyErr
  | attributeError
  | indexError
deriving DecidableEq, Repr

/-- The nine states of `SipCall`:
`NO_SESSION, SESSION_SETUP, ACTIVE_SESSION, SESSION_TEARDOWN, INVITE,
INVITE_TRYING, INVITE_RINGING, INVITE_CANCEL, CALL = range(9)`. -/
inductive CallState
  | NO_SESSION
  | SESSION_SETUP
  | ACTIVE_SESSION
  | SESSION_TEARDOWN
  | INVITE
  | INVITE_TRYING
  | INVITE_RINGING
  | INVITE_CANCEL
  | CALL
deriving DecidableEq, Repr

/-- A user entry of the SIP configuration (`extras.SipConfig`), with the
fields the module reads: `username`, `password` (None disables
authentication), `realm`, `pickup_delay_min`, `pickup_delay_max`, `sdp`. -/
structure SipUser where
  username : String
  password : Option String
  realm : String
  pickup_delay_min : Nat
  pickup_delay_max : Nat
  sdp : String
deriving DecidableEq, Repr

/-- One `m=` media description of a parsed SDP body: the module reads
`media.media` (the media kind, e.g. `audio`) and `media.port`. -/
structure Media where
  media : String
  port : Nat
deriving DecidableEq, Repr

/-- A Via header: the module reads only the `branch` parameter
(`via.get_raw().get_param(b"branch")`, `None` when absent). -/
structure ViaHdr where
  branch : Option String
deriving DecidableEq, Repr

/-- Modelled from the spec: the digest value computed by the external
`rfc2617` collaborator from username, realm, credential, method and nonce.
`rfc2617.py` is not part of the sources; per the spec the authenticator
computes the expected digest from these five inputs and compares it with
the supplied response, so the digest is modelled as the record of its
inputs (i.e. the hash is treated as injective). -/
structure Digest where
  username : String
  realm : String
  credential : String
  method : String
  nonce : String
deriving DecidableEq, Repr

/-- An `rfc2617.Authentication` challenge as constructed by
`SipSession.handle_REGISTER`: method, algorithm, nonce, realm. In the
source the nonce is written once as the str literal `"foobar123"` and once
as the bytes literal `b"foobar123"`; both denote the same nine characters
on the wire and are modelled as the string `foobar123`. -/
structure Authentication where
  method : String
  algorithm : String
  nonce : String
  realm : String
deriving DecidableEq, Repr

/-- Modelled from the spec: `rfc2617.Authentication.check(username,
password, method, auth_response)` verifies the supplied digest response
against the expected digest built from the challenge's realm and nonce and
the given username, credential and method. -/
def Authentication.check (a : Authentication) (username credential method : String)
    (resp : Digest) : Bool :=
  resp = ⟨username, a.realm, credential, method, a.nonce⟩

/-- A parsed SIP request, with exactly the pieces the modelled handlers
read: the method, the Call-ID value, the CSeq sequence number, the user
part of the To URI, the Via headers, the parsed Authorization digest (if
the header is present), presence of the REGISTER-mandatory headers
(To, From, Call-ID, CSeq), presence and value of Content-Type, and the
parsed SDP media descriptions (`none` when `msg.sdp` is `None`). -/
structure Msg where
  method : String := ""
  callId : String := ""
  cseqSeq : Nat := 0
  toUser : String := ""
  vias : List ViaHdr := []
  auth : Option Digest := none
  hasRegisterHeaders : Bool := true
  hasContentType : Bool := true
  contentType : String := ""
  sdp : Option (List Media) := none
deriving DecidableEq, Repr

/-- One outbound datagram produced by `self.send(msg.dumps())`: the status
code passed to `create_response`, the request the response was created
from, and the WWW-Authenticate challenge appended to its headers, if any. -/
structure Response where
  code : Nat
  req : Msg
  wwwAuth : Option Authentication := none
deriving DecidableEq, Repr

/-- A `SipCall` call transaction: its current state, the resolved user
(`self._user`, `None` when the configuration has no such identity), the
original INVITE message (`self.__msg`), its Call-ID, the remote RTP port
taken from the SDP audio media, the invite-handler timer, and the RTP
stream (`some remotePort` once `RtpUdpStream` has been created). -/
structure SipCall where
  state : CallState
  user : Option SipUser
  msg : Msg
  callId : String
  remoteRtpPort : Nat
  timer : Option ℚ
  rtpStream : Option Nat
deriving DecidableEq, Repr

/-- `SipCall.__init__`: state starts at `SESSION_SETUP`, the user is
resolved through `g_sipconfig.get_user_by_username` from the To URI's user
part, the invite-handler timer is created but not started. -/
def SipCall.mk0 (getUser : String → Option SipUser) (m : Msg) (rtpPort : Nat) : SipCall :=
  { state := .SESSION_SETUP
    user := getUser m.toUser
    msg := m
    callId := m.callId
    remoteRtpPort := rtpPort
    timer := none
    rtpStream := none }

/-- `SipCall.handle_INVITE`: set the state to `INVITE` and arm the
invite-handler timer with a 0.1 second delay. No datagram is sent. -/
def SipCall.handle_INVITE_req (c : SipCall) : SipCall :=
  { c with state := .INVITE, timer := some (1 / 10 : ℚ) }

/-- `SipCall.__handle_invite`, the invite-handler timer callback. The
firing timer is consumed (`pyev` one-shot), and may be re-armed:
- `INVITE`, user unresolved: respond 404, go to `NO_SESSION`, stop;
- `INVITE`: respond 100, go to `INVITE_TRYING`, re-arm with 1 second;
- `INVITE_TRYING`: respond 180, go to `INVITE_RINGING`, re-arm with
  `random.randint(pickup_delay_min, pickup_delay_max)` seconds;
- `INVITE_RINGING`: create the RTP stream, respond 200 with an SDP body,
  go to `CALL`, no re-arm;
- any other state: nothing happens.
Accessing `self._user.pickup_delay_min` or `self._user.sdp` with
`self._user` equal to `None` raises `AttributeError` (unreachable in the
lifecycle, since `INVITE` with an unresolved user goes to `NO_SESSION`). -/
def SipCall.fireInviteTimer (rng : Nat → Nat → Nat) (c : SipCall) :
    Except PyErr (SipCall × List Response) :=
  if c.state = .INVITE then
    match c.user with
    | none => .ok ({ c with state := .NO_SESSION, timer := none }, [⟨404, c.msg, none⟩])
    | some _ => .ok ({ c with state := .INVITE_TRYING, timer := some 1 }, [⟨100, c.msg, none⟩])
  else if c.state = .INVITE_TRYING then
    match c.user with
    | none => .error .attributeError
    | some u =>
      let delay := rng u.pickup_delay_min u.pickup_delay_max
      .ok ({ c with state := .INVITE_RINGING, timer := some (delay : ℚ) }, [⟨180, c.msg, none⟩])
  else if c.state = .INVITE_RINGING then
    match c.user with
    | none => .error .attributeError
    | some _ =>
      .ok ({ c with state := .CALL, timer := none, rtpStream := some c.remoteRtpPort },
        [⟨200, c.msg, none⟩])
  else
    .ok ({ c with timer := none }, [])

/-- Fire the invite-handler timer `n` times, collecting the responses sent
(in order); an exception aborts the run. -/
def SipCall.fireTimes (rng : Nat → Nat → Nat) : Nat → SipCall → Except PyErr (SipCall × List Response)
  | 0, c => .ok (c, [])
  | n + 1, c =>
    match c.fireInviteTimer rng with
    | .error e => .error e
    | .ok (c1, rs) =>
      match SipCall.fireTimes rng n c1 with
      | .error e => .error e
      | .ok (c2, rs1) => .ok (c2, rs ++ rs1)

/-- `SipCall.handle_CANCEL`: outside `INVITE`/`INVITE_TRYING`/
`INVITE_RINGING`, or when the CANCEL's CSeq sequence number differs from
the original INVITE's, the request is only logged. Otherwise the state
becomes `INVITE_CANCEL`, the invite-handler timer is stopped, a 487 is
sent for the original INVITE and a 200 for the CANCEL, in that order. -/
def SipCall.handle_CANCEL (c : SipCall) (msg_cancel : Msg) : SipCall × List Response :=
  if ¬(c.state = .INVITE ∨ c.state = .INVITE_TRYING ∨ c.state = .INVITE_RINGING) then
    (c, [])
  else if c.msg.cseqSeq ≠ msg_cancel.cseqSeq then
    (c, [])
  else
    ({ c with state := .INVITE_CANCEL, timer := none },
      [⟨487, c.msg, none⟩, ⟨200, msg_cancel, none⟩])

/-- `SipCall.handle_ACK`: only meaningful in state `INVITE_CANCEL` and
only when the ACK's CSeq sequence number equals the original INVITE's; in
that case the call closes itself (the Boolean result). No response is ever
sent. -/
def SipCall.handle_ACK (c : SipCall) (msg_ack : Msg) : SipCall × List Response × Bool :=
  if ¬c.state = .INVITE_CANCEL then
    (c, [], false)
  else if c.msg.cseqSeq ≠ msg_ack.cseqSeq then
    (c, [], false)
  else
    (c, [], true)

/-- Ordered association list lookup, modelling `key in dict` /
`dict.get(key)` on a Python dict (insertion-ordered, unique keys). -/
def alookup {α : Type} : List (String × α) → String → Option α
  | [], _ => none
  | (k, v) :: t, key => if k = key then some v else alookup t key

/-- `dict[key] = value`: replace the value in place when the key is
present, append a new entry otherwise. -/
def aset {α : Type} : List (String × α) → String → α → List (String × α)
  | [], key, v => [(key, v)]
  | (k, w) :: t, key, v => if k = key then (k, v) :: t else (k, w) :: aset t key v

/-- `del dict[key]`: remove the entry with the given key. -/
def aerase {α : Type} : List (String × α) → String → List (String × α)
  | [], _ => []
  | (k, w) :: t, key => if k = key then t else (k, w) :: aerase t key

/-- A `User` record built by `handle_REGISTER`: the user identifier, the
branch parameter of the last Via header, and the nominal (never consulted)
expiry duration defaulted to 3600 by `User.__init__`. -/
structure RUser where
  id : String
  branch : Option String
  expires : Nat := 3600
deriving DecidableEq, Repr

/-- The process-wide `RegistrationManager._users` dict: user identifier to
the ordered list of registered `User` records. -/
abbrev RegManager := List (String × List RUser)

/-- `RegistrationManager.register`: create an empty list for an unseen
user id, then append the record (no deduplication, no expiry). -/
def RegManager.register (rm : RegManager) (u : RUser) : RegManager :=
  match alookup rm u.id with
  | none => aset rm u.id [u]
  | some l => aset rm u.id (l ++ [u])

/-- The value of the `SipSession._auth` attribute. `__init__` sets it to
the empty list `[]`; `handle_REGISTER` overwrites it with
`rfc2617.Authentication` challenge objects. It is never assigned `None`
anywhere in the module. -/
inductive AuthField
  | emptyList
  | challenge (a : Authentication)
deriving DecidableEq, Repr

/-- The Python comparison `self._auth == None`. Since `_auth` is only ever
the initial `[]` or an `Authentication` instance, it never compares equal
to `None`. -/
def AuthField.isPyNone : AuthField → Bool
  | _ => false

/-- Direction tag of a bistream entry. -/
inductive Dir
  | inbound
  | outbound
deriving DecidableEq, Repr

/-- The mutable state of a `SipSession` relevant to the modelled handlers:
the Call-ID to `SipCall` dict, the `_auth` attribute, the bistream trace
log, and the process-wide registration directory (threaded through the
session state for the model; there is a single `reg_manager` instance). -/
structure SessionState where
  callids : List (String × SipCall)
  auth : AuthField
  bistream : List (Dir × List Nat)
  regs : RegManager
deriving DecidableEq, Repr

/-- A fresh `SipSession`: empty Call-ID dict, `_auth = []`, empty
bistream (paired here with an empty registration directory). -/
def SessionState.fresh : SessionState :=
  { callids := [], auth := .emptyList, bistream := [], regs := [] }

/-- `SipSession.handle_INVITE`: require a Content-Type header whose value
lower-cases to `application/sdp`, a parsed SDP body with at least one
media description among which an audio one; require the Call-ID to be
unseen in `self._callids`. Each failed requirement is logged and the
request dropped with no response. On success, construct the `SipCall`
(state `SESSION_SETUP`), store it under its Call-ID and run its
`handle_INVITE` (state `INVITE`, timer armed at 0.1 s); still no datagram
is sent. -/
def SessionState.handle_INVITE (getUser : String → Option SipUser)
    (s : SessionState) (m : Msg) : SessionState × List Response :=
  if ¬m.hasContentType then
    (s, [])
  else if m.contentType.toLower ≠ "application/sdp" then
    (s, [])
  else
    match m.sdp with
    | none => (s, [])
    | some medias =>
      if medias.length < 1 then
        (s, [])
      else
        match medias.find? (fun md => md.media.toLower = "audio") with
        | none => (s, [])
        | some audioMedia =>
          if (alookup s.callids m.callId).isSome then
            (s, [])
          else
            let new_call := (SipCall.mk0 getUser m audioMedia.port).handle_INVITE_req
            ({ s with callids := aset s.callids m.callId new_call }, [])

/-- `SipSession.handle_ACK`: drop the request when the Call-ID maps to no
call; otherwise delegate to the call's `handle_ACK`, which closes the call
(removing it from `self._callids`) exactly when it returns `True`. -/
def SessionState.handle_ACK (s : SessionState) (m : Msg) : SessionState × List Response :=
  match alookup s.callids m.callId with
  | none => (s, [])
  | some c =>
    let (c1, rs, closed) := c.handle_ACK m
    if closed then
      ({ s with callids := aerase s.callids m.callId }, rs)
    else
      ({ s with callids := aset s.callids m.callId c1 }, rs)

/-- `SipSession.handle_CANCEL`: drop the request when the Call-ID maps to
no call; otherwise delegate to the call's `handle_CANCEL`. -/
def SessionState.handle_CANCEL (s : SessionState) (m : Msg) : SessionState × List Response :=
  match alookup s.callids m.callId with
  | none => (s, [])
  | some c =>
    let (c1, rs) := c.handle_CANCEL m
    ({ s with callids := aset s.callids m.callId c1 }, rs)

/-- The constant nonce used by every challenge `handle_REGISTER` builds
(written `"foobar123"` for the first challenge and `b"foobar123"` for the
re-challenge in the source). -/
def theNonce : String := "foobar123"

/-- `SipSession.handle_REGISTER`. Steps, following the source:
- drop silently when To, From, Call-ID or CSeq is missing;
- `vias[-1]` on the (possibly defaulted-empty) Via list: raises
  `IndexError` when no Via header is present;
- resolve the To user against the configuration; accessing `.password` on
  an unresolved (`None`) user raises `AttributeError`;
- when the user has a password: with no Authorization header (or `_auth`
  equal to `None`, which never holds), build a fresh challenge for the
  user's realm with the constant nonce, store it in `_auth` and send 401
  carrying it; otherwise verify the supplied digest with
  `self._auth.check(u.username, "test", "REGISTER", ...)` — calling
  `.check` on the initial `[]` value of `_auth` raises `AttributeError` —
  and on failure rebuild and store a challenge (same constant nonce) and
  send 401;
- otherwise register `User(user_id, branch)` and send 200. -/
def SessionState.handle_REGISTER (getUser : String → Option SipUser)
    (s : SessionState) (m : Msg) : Except PyErr (SessionState × List Response) :=
  if ¬m.hasRegisterHeaders then
    .ok (s, [])
  else
    match m.vias.getLast? with
    | none => .error .indexError
    | some via =>
      let branch := via.branch
      let user_id := m.toUser
      match getUser user_id with
      | none => .error .attributeError
      | some u =>
        let register : SessionState × List Response :=
          ({ s with regs := s.regs.register ⟨user_id, branch, 3600⟩ }, [⟨200, m, none⟩])
        if u.password ≠ none then
          if m.auth = none ∨ s.auth.isPyNone then
            let a : Authentication := ⟨"digest", "md5", theNonce, u.realm⟩
            .ok ({ s with auth := .challenge a }, [⟨401, m, some a⟩])
          else
            match m.auth, s.auth with
            | some auth_response, .challenge a =>
              if a.check u.username "test" "REGISTER" auth_response = false then
                let a1 : Authentication := ⟨"digest", "md5", theNonce, u.realm⟩
                .ok ({ s with auth := .challenge a1 }, [⟨401, m, some a1⟩])
              else
                .ok register
            | some _, .emptyList => .error .attributeError
            | none, _ => .error .attributeError
          else
            .ok register

/-- A SIP parse failure raised by the external `rfc3261.Message`
constructor (the module defines `SipParsingError` for this family of
errors). The payload is an opaque tag. -/
structure ParseErr where
  tag : Nat
deriving DecidableEq, Repr

/-- How control left `SipSession.handle_io_in`: either by returning
`len(data)`, or by an exception propagating out of the handler to its
caller. -/
inductive RetVal
  | returns (n : Nat)
  | raises (e : ParseErr)
deriving DecidableEq, Repr

/-- Outcome of `SipSession.handle_io_in`: the session state after all
side effects that happened before control left the handler, the datagrams
sent, and either the returned value `len(data)` or the exception that
escaped the handler. -/
structure IoResult where
  st : SessionState
  sent : List Response
  ret : RetVal
deriving DecidableEq, Repr

/-- `SipSession.handle_io_in`: append `('in', data)` to the bistream, then
parse the payload with `rfc3261.Message(data)` — this call is wrapped in
no try/except, so a parse failure escapes the handler (the surrounding
`try` only guards the later `getattr` for method dispatch). On success,
dispatch on the method name and return `len(data)`. The parser and the
per-method dispatch are passed as parameters: `rfc3261` is an external
collaborator (modelled from the spec as `parse(bytes) -> Request |
ParseError`), and the dispatch parameter stands for the per-method
handlers modelled individually above. -/
def SessionState.handle_io_in (parse : List Nat → Except ParseErr Msg)
    (dispatch : Msg → SessionState → SessionState × List Response)
    (s : SessionState) (data : List Nat) : IoResult :=
  let s1 := { s with bistream := s.bistream ++ [(.inbound, data)] }
  match parse data with
  | .error e => ⟨s1, [], .raises e⟩
  | .ok m =>
    let (s2, rs) := dispatch m s1
    ⟨s2, rs, .returns data.length⟩

/-! ### Concrete fixtures

Concrete configuration, session states and messages used by the witness
and counterexample theorems below. -/

/-- A credentialed identity: password `secret`, realm `realm1`,
pickup-delay window `[2, 5]`. -/
def sampleUser : SipUser :=
  { username := "bob"
    password := some "secret"
    realm := "realm1"
    pickup_delay_min := 2
    pickup_delay_max := 5
    sdp := "default" }

/-- A configuration lookup resolving exactly the identity `bob`. -/
def sampleGetUser : String → Option SipUser :=
  fun name => if name = "bob" then some sampleUser else none

/-- The challenge `handle_REGISTER` builds for `sampleUser`: digest, md5,
the constant nonce, realm `realm1`. -/
def sampleChallenge : Authentication :=
  ⟨"digest", "md5", theNonce, sampleUser.realm⟩

/-- A session that has already issued (and stored) `sampleChallenge`. -/
def sampleChallengedState : SessionState :=
  { SessionState.fresh with auth := .challenge sampleChallenge }

/-- A REGISTER for `bob` with no Authorization header. -/
def sampleRegisterNoAuth : Msg :=
  { method := "REGISTER", callId := "cid1", toUser := "bob", vias := [⟨some "br1"⟩] }

/-- The digest response computed from `sampleUser`'s configured
credential `secret`, the stored challenge's realm and nonce, username
`bob` and method REGISTER — per the spec's verifier, a successful
verification against the identity's configured credential. -/
def sampleCredDigest : Digest :=
  ⟨"bob", "realm1", "secret", "REGISTER", theNonce⟩

/-- The digest response computed from the hardcoded credential `test`. -/
def sampleTestDigest : Digest :=
  ⟨"bob", "realm1", "test", "REGISTER", theNonce⟩

/-- A REGISTER for `bob` carrying the configured-credential digest. -/
def sampleRegisterCredAuth : Msg :=
  { sampleRegisterNoAuth with auth := some sampleCredDigest }

/-- A REGISTER for `bob` carrying the hardcoded-credential digest. -/
def sampleRegisterTestAuth : Msg :=
  { sampleRegisterNoAuth with auth := some sampleTestDigest }

/-- An INVITE for `bob` with an SDP audio media on port 4000. -/
def sampleInvite : Msg :=
  { method := "INVITE", callId := "c1", cseqSeq := 7, toUser := "bob",
    hasContentType := true, contentType := "Application/SDP",
    sdp := some [⟨"Audio", 4000⟩] }

/-- The call transaction created from `sampleInvite`, after the session
ran its `handle_INVITE` (state `INVITE`, timer armed). -/
def sampleInviteCall : SipCall :=
  (SipCall.mk0 sampleGetUser sampleInvite 4000).handle_INVITE_req

/-- `sampleInviteCall` advanced to state `INVITE_TRYING`. -/
def sampleTryingCall : SipCall :=
  { sampleInviteCall with state := .INVITE_TRYING, timer := some 1 }

/-- `sampleInviteCall` advanced to state `INVITE_CANCEL`. -/
def sampleCancelledCall : SipCall :=
  { sampleInviteCall with state := .INVITE_CANCEL, timer := none }

/-- A CANCEL for `sampleInvite` with the same CSeq sequence number 7. -/
def sampleCancelMatching : Msg :=
  { method := "CANCEL", callId := "c1", cseqSeq := 7, toUser := "bob" }

/-- A CANCEL for `sampleInvite` with a different CSeq sequence number. -/
def sampleCancelMismatch : Msg :=
  { method := "CANCEL", callId := "c1", cseqSeq := 8, toUser := "bob" }

/-- An ACK for `sampleInvite` with a different CSeq sequence number. -/
def sampleAckMismatch : Msg :=
  { method := "ACK", callId := "c1", cseqSeq := 8, toUser := "bob" }

/-- A session owning `sampleCancelledCall` under Call-ID `c1`. -/
def sampleCancelledSession : SessionState :=
  { SessionState.fresh with callids := [("c1", sampleCancelledCall)] }

/-- A session owning `sampleTryingCall` under Call-ID `c1`. -/
def sampleTryingSession : SessionState :=
  { SessionState.fresh with callids := [("c1", sampleTryingCall)] }

/-- A random oracle that always answers with the lower bound (satisfies
the `randint` contract). -/
def sampleRng : Nat → Nat → Nat := fun a _ => a

/-- A parser that fails on the one-byte payload `[0]` and parses
everything else to the default message (modelled from the spec: the
external parser yields a request or fails with a ParseError). -/
def sampleParse : List Nat → Except ParseErr Msg :=
  fun data => if data = [0] then .error ⟨0⟩ else .ok {}

/-- A dispatch that does nothing (the parse-failure path never reaches
dispatch, so its behavior is irrelevant to the claims using it). -/
def sampleDispatch : Msg → SessionState → SessionState × List Response :=
  fun _ s => (s, [])

/-! ### Helper lemmas on association lists and the registry -/

/-- Writing back the value already stored under a key leaves the
association list unchanged. -/
theorem aset_lookup_eq {α : Type} (l : List (String × α)) (k : String) (v : α)
    (h : alookup l k = some v) : aset l k v = l := by
  induction l with
  | nil => simp [alookup] at h
  | cons p t ih =>
    obtain ⟨pk, pv⟩ := p
    by_cases hk : pk = k
    · subst hk
      simp [alookup] at h
      simp [aset, h]
    · simp [alookup, hk] at h
      simp [aset, hk, ih h]

/-- Looking up the key just written finds the written value. -/
theorem alookup_aset {α : Type} (l : List (String × α)) (k : String) (v : α) :
    alookup (aset l k v) k = some v := by
  induction l with
  | nil => simp [aset, alookup]
  | cons p t ih =>
    obtain ⟨pk, pv⟩ := p
    by_cases hk : pk = k
    · simp [aset, hk, alookup]
    · simp [aset, hk, alookup, ih]

/-- After `RegistrationManager.register`, the registered record is in the
directory's list for its user identifier. -/
theorem register_mem (rm : RegManager) (ru : RUser) :
    ∃ l, alookup (rm.register ru) ru.id = some l ∧ ru ∈ l := by
  unfold RegManager.register
  cases h : alookup rm ru.id with
  | none => exact ⟨[ru], by rw [alookup_aset], List.mem_singleton.mpr rfl⟩
  | some l => exact ⟨l ++ [ru], by rw [alookup_aset], List.mem_append_right _ (List.mem_singleton.mpr rfl)⟩

/-! ### Claim theorems -/

/-- C3: for every call transaction in state INVITE, INVITE_TRYING or
INVITE_RINGING, a CANCEL whose CSeq sequence number equals the original
INVITE's CSeq stops the pending timer, produces exactly two responses —
487 for the original INVITE, then 200 for the CANCEL — and moves the
transaction to INVITE_CANCEL (the CANCELLED state). -/
theorem C3_cancel_matching_cseq (c : SipCall) (mc : Msg)
    (hst : c.state = .INVITE ∨ c.state = .INVITE_TRYING ∨ c.state = .INVITE_RINGING)
    (hseq : c.msg.cseqSeq = mc.cseqSeq) :
    c.handle_CANCEL mc =
      ({ c with state := .INVITE_CANCEL, timer := none },
        [⟨487, c.msg, none⟩, ⟨200, mc, none⟩]) := by
  unfold SipCall.handle_CANCEL
  rw [if_neg (not_not_intro hst), if_neg (fun hne => hne hseq)]

/-- Witness for C3 at a concrete call in state INVITE_TRYING and a CANCEL
with the matching CSeq value 7. -/
theorem C3_cancel_matching_cseq_witness :
    sampleTryingCall.handle_CANCEL sampleCancelMatching =
      ({ sampleTryingCall with state := .INVITE_CANCEL, timer := none },
        [⟨487, sampleTryingCall.msg, none⟩, ⟨200, sampleCancelMatching, none⟩]) :=
  C3_cancel_matching_cseq sampleTryingCall sampleCancelMatching (Or.inr (Or.inl rfl)) rfl

/-- C8: for every call transaction, a CANCEL whose CSeq sequence number
differs from the original INVITE's is a no-op — the transaction (state,
timer and all other fields) is returned unchanged and no response is
produced. -/
theorem C8_cancel_mismatched_cseq (c : SipCall) (mc : Msg)
    (hseq : c.msg.cseqSeq ≠ mc.cseqSeq) :
    c.handle_CANCEL mc = (c, []) := by
  simp [SipCall.handle_CANCEL, hseq]

/-- Witness for C8 at a concrete call in state INVITE_TRYING (original
CSeq 7) and a CANCEL with CSeq 8. -/
theorem C8_cancel_mismatched_cseq_witness :
    sampleTryingCall.handle_CANCEL sampleCancelMismatch = (sampleTryingCall, []) :=
  C8_cancel_mismatched_cseq sampleTryingCall sampleCancelMismatch (by decide)

/-- C10: for every session owning, under the ACK's Call-ID, a call
transaction in state INVITE_CANCEL, an ACK whose CSeq sequence number
differs from the original INVITE's does not close the transaction: the
session (including its Call-ID map and the transaction's state) is
unchanged and no response is sent. -/
theorem C10_ack_mismatched_cseq (s : SessionState) (m : Msg) (c : SipCall)
    (hc : alookup s.callids m.callId = some c)
    (hst : c.state = .INVITE_CANCEL)
    (hseq : c.msg.cseqSeq ≠ m.cseqSeq) :
    s.handle_ACK m = (s, []) := by
  simp [SessionState.handle_ACK, SipCall.handle_ACK, hc, hst, hseq,
    aset_lookup_eq s.callids m.callId c hc]

/-- Witness for C10 at a concrete session owning a cancelled call with
CSeq 7 and an ACK with CSeq 8. -/
theorem C10_ack_mismatched_cseq_witness :
    sampleCancelledSession.handle_ACK sampleAckMismatch = (sampleCancelledSession, []) :=
  C10_ack_mismatched_cseq sampleCancelledSession sampleAckMismatch sampleCancelledCall
    (by decide) (by decide) (by decide)

/-- C6: for every session, an INVITE whose Call-ID is already present in
the session's Call-ID map is a no-op: no new call transaction is created,
no response is sent, and the session — in particular the existing
transaction — is unchanged. -/
theorem C6_duplicate_callid_invite (getUser : String → Option SipUser)
    (s : SessionState) (m : Msg)
    (h : (alookup s.callids m.callId).isSome) :
    s.handle_INVITE getUser m = (s, []) := by
  unfold SessionState.handle_INVITE
  repeat' split
  all_goals simp_all

/-- Witness for C6: the INVITE that created the call under Call-ID `c1`
is replayed against the session that already owns that call. -/
theorem C6_duplicate_callid_invite_witness :
    sampleTryingSession.handle_INVITE sampleGetUser sampleInvite = (sampleTryingSession, []) :=
  C6_duplicate_callid_invite sampleGetUser sampleTryingSession sampleInvite (by decide)

/-- C9: for every call transaction in state INVITE_TRYING with a resolved
identity, for every value the `randint` oracle can return (any oracle
satisfying `randint`'s inclusive-bounds contract), the timer fire sends
the 180 response and re-arms the timer with a delay inside the identity's
pickup-delay window, both bounds included. -/
theorem C9_pickup_delay_in_window (rng : Nat → Nat → Nat)
    (hrng : ∀ a b, a ≤ b → a ≤ rng a b ∧ rng a b ≤ b)
    (c : SipCall) (u : SipUser)
    (hst : c.state = .INVITE_TRYING) (hu : c.user = some u)
    (hwin : u.pickup_delay_min ≤ u.pickup_delay_max) :
    ∃ d : Nat,
      c.fireInviteTimer rng =
        .ok ({ c with state := .INVITE_RINGING, timer := some (d : ℚ) },
          [⟨180, c.msg, none⟩]) ∧
      u.pickup_delay_min ≤ d ∧ d ≤ u.pickup_delay_max := by
  refine ⟨rng u.pickup_delay_min u.pickup_delay_max, ?_,
    (hrng _ _ hwin).1, (hrng _ _ hwin).2⟩
  unfold SipCall.fireInviteTimer
  rw [if_neg (by simp [hst]), if_pos hst, hu]

/-- C2: a call transaction whose identity resolves and that receives no
CANCEL advances SETUP, INVITE, TRYING, RINGING, ANSWERED (`SESSION_SETUP`,
`INVITE`, `INVITE_TRYING`, `INVITE_RINGING`, `CALL`) with no skipped
state, one state per timer fire, and reaches `CALL` exactly at the third
fire, at which point exactly the three responses 100, 180, 200 have been
sent, in that order (after two fires only 100 and 180 have been sent and
the state is still `INVITE_RINGING`). -/
theorem C2_invite_lifecycle (getUser : String → Option SipUser)
    (rng : Nat → Nat → Nat) (m : Msg) (rtpPort : Nat) (u : SipUser)
    (hu : getUser m.toUser = some u) :
    (SipCall.mk0 getUser m rtpPort).state = .SESSION_SETUP ∧
    ((SipCall.mk0 getUser m rtpPort).handle_INVITE_req).state = .INVITE ∧
    (∃ c2 c3 c4 : SipCall,
      ((SipCall.mk0 getUser m rtpPort).handle_INVITE_req).fireInviteTimer rng =
        .ok (c2, [⟨100, m, none⟩]) ∧
      c2.state = .INVITE_TRYING ∧
      c2.fireInviteTimer rng = .ok (c3, [⟨180, m, none⟩]) ∧
      c3.state = .INVITE_RINGING ∧
      c3.fireInviteTimer rng = .ok (c4, [⟨200, m, none⟩]) ∧
      c4.state = .CALL ∧
      SipCall.fireTimes rng 2 ((SipCall.mk0 getUser m rtpPort).handle_INVITE_req) =
        .ok (c3, [⟨100, m, none⟩, ⟨180, m, none⟩]) ∧
      SipCall.fireTimes rng 3 ((SipCall.mk0 getUser m rtpPort).handle_INVITE_req) =
        .ok (c4, [⟨100, m, none⟩, ⟨180, m, none⟩, ⟨200, m, none⟩])) := by
  refine ⟨rfl, rfl,
    ⟨{ (SipCall.mk0 getUser m rtpPort).handle_INVITE_req with
        state := .INVITE_TRYING, timer := some 1 },
      { (SipCall.mk0 getUser m rtpPort).handle_INVITE_req with
        state := .INVITE_RINGING,
        timer := some ((rng u.pickup_delay_min u.pickup_delay_max : Nat) : ℚ) },
      { (SipCall.mk0 getUser m rtpPort).handle_INVITE_req with
        state := .CALL, timer := none, rtpStream := some rtpPort },
      ?_, rfl, ?_, rfl, ?_, rfl, ?_, ?_⟩⟩ <;>
  simp [SipCall.mk0, SipCall.handle_INVITE_req, SipCall.fireInviteTimer,
    SipCall.fireTimes, hu]

/-- Witness for C2 at the concrete INVITE for `bob` and the lower-bound
oracle. -/
theorem C2_invite_lifecycle_witness :
    (SipCall.mk0 sampleGetUser sampleInvite 4000).state = .SESSION_SETUP ∧
    ((SipCall.mk0 sampleGetUser sampleInvite 4000).handle_INVITE_req).state = .INVITE ∧
    (∃ c2 c3 c4 : SipCall,
      ((SipCall.mk0 sampleGetUser sampleInvite 4000).handle_INVITE_req).fireInviteTimer sampleRng =
        .ok (c2, [⟨100, sampleInvite, none⟩]) ∧
      c2.state = .INVITE_TRYING ∧
      c2.fireInviteTimer sampleRng = .ok (c3, [⟨180, sampleInvite, none⟩]) ∧
      c3.state = .INVITE_RINGING ∧
      c3.fireInviteTimer sampleRng = .ok (c4, [⟨200, sampleInvite, none⟩]) ∧
      c4.state = .CALL ∧
      SipCall.fireTimes sampleRng 2 ((SipCall.mk0 sampleGetUser sampleInvite 4000).handle_INVITE_req) =
        .ok (c3, [⟨100, sampleInvite, none⟩, ⟨180, sampleInvite, none⟩]) ∧
      SipCall.fireTimes sampleRng 3 ((SipCall.mk0 sampleGetUser sampleInvite 4000).handle_INVITE_req) =
        .ok (c4, [⟨100, sampleInvite, none⟩, ⟨180, sampleInvite, none⟩, ⟨200, sampleInvite, none⟩])) :=
  C2_invite_lifecycle sampleGetUser sampleRng sampleInvite 4000 sampleUser (by decide)

/-- C1 counterexample: the nonce IS reused across consecutive challenges.
The first REGISTER (no Authorization) stores a challenge with the
constant nonce `foobar123`; the follow-up REGISTER whose digest
verification fails is re-challenged with a 401 carrying a challenge with
the very same nonce (the source hardcodes `"foobar123"` in the first
challenge and `b"foobar123"` in the re-challenge). -/
theorem C1_nonce_reuse_counterexample :
    SessionState.handle_REGISTER sampleGetUser SessionState.fresh sampleRegisterNoAuth =
      .ok (sampleChallengedState, [⟨401, sampleRegisterNoAuth, some sampleChallenge⟩]) ∧
    sampleChallengedState.auth = .challenge sampleChallenge ∧
    sampleChallenge.check sampleUser.username "test" "REGISTER" sampleCredDigest = false ∧
    SessionState.handle_REGISTER sampleGetUser sampleChallengedState sampleRegisterCredAuth =
      .ok (sampleChallengedState, [⟨401, sampleRegisterCredAuth, some sampleChallenge⟩]) ∧
    sampleChallenge.nonce = theNonce := by
  decide

/-- C1 as amended: after a REGISTER whose digest verification fails, the
401 re-challenge carries the constant nonce `foobar123` — the same value
every challenge of this module carries — so when the previously stored
challenge was issued by this module, the re-challenge reuses its nonce
rather than rotating to a fresh one. -/
theorem C1_rechallenge_constant_nonce (getUser : String → Option SipUser)
    (s : SessionState) (m : Msg) (via : ViaHdr) (u : SipUser)
    (a : Authentication) (d : Digest)
    (hhdr : m.hasRegisterHeaders = true)
    (hvia : m.vias.getLast? = some via)
    (hu : getUser m.toUser = some u)
    (hpw : u.password ≠ none)
    (hauth : m.auth = some d)
    (hstored : s.auth = .challenge a)
    (hfail : a.check u.username "test" "REGISTER" d = false) :
    s.handle_REGISTER getUser m =
      .ok ({ s with auth := .challenge ⟨"digest", "md5", theNonce, u.realm⟩ },
        [⟨401, m, some ⟨"digest", "md5", theNonce, u.realm⟩⟩]) ∧
    (a.nonce = theNonce →
      (Authentication.mk "digest" "md5" theNonce u.realm).nonce = a.nonce) := by
  constructor
  · simp [SessionState.handle_REGISTER, hhdr, hvia, hu, hpw, hauth, hstored, hfail,
      AuthField.isPyNone]
  · exact fun h => h.symm

/-- Witness for the amended C1 at the concrete second REGISTER of
`C1_nonce_reuse_counterexample`. -/
theorem C1_rechallenge_constant_nonce_witness :
    SessionState.handle_REGISTER sampleGetUser sampleChallengedState sampleRegisterCredAuth =
      .ok ({ sampleChallengedState with
          auth := .challenge ⟨"digest", "md5", theNonce, sampleUser.realm⟩ },
        [⟨401, sampleRegisterCredAuth, some ⟨"digest", "md5", theNonce, sampleUser.realm⟩⟩]) ∧
    (sampleChallenge.nonce = theNonce →
      (Authentication.mk "digest" "md5" theNonce sampleUser.realm).nonce = sampleChallenge.nonce) :=
  C1_rechallenge_constant_nonce sampleGetUser sampleChallengedState sampleRegisterCredAuth
    ⟨some "br1"⟩ sampleUser sampleChallenge sampleCredDigest
    (by decide) (by decide) (by decide) (by decide) (by decide) (by decide) (by decide)

/-- C4 counterexample: the digest is NOT verified against the identity's
configured credential. The supplied response is exactly the digest the
spec's verifier computes from the stored challenge (realm, nonce), the
username, the method and the configured credential `secret`; yet the code
— which verifies against the hardcoded credential `test` — rejects it
with a 401 re-challenge and records nothing in the (empty) Registration
Directory, instead of the 200 plus registration the claim requires. -/
theorem C4_configured_credential_counterexample :
    sampleUser.password = some "secret" ∧
    sampleCredDigest =
      ⟨sampleUser.username, sampleChallenge.realm, "secret", "REGISTER", sampleChallenge.nonce⟩ ∧
    sampleChallengedState.regs = [] ∧
    SessionState.handle_REGISTER sampleGetUser sampleChallengedState sampleRegisterCredAuth =
      .ok (sampleChallengedState, [⟨401, sampleRegisterCredAuth, some sampleChallenge⟩]) := by
  decide

/-- C4 as amended: the digest is verified against the session's stored
challenge and the hardcoded credential `test` (not the identity's
configured credential); when that verification succeeds, the identity is
recorded in the Registration Directory and a 200 OK response is sent. -/
theorem C4_register_hardcoded_credential (getUser : String → Option SipUser)
    (s : SessionState) (m : Msg) (via : ViaHdr) (u : SipUser)
    (a : Authentication) (d : Digest)
    (hhdr : m.hasRegisterHeaders = true)
    (hvia : m.vias.getLast? = some via)
    (hu : getUser m.toUser = some u)
    (hpw : u.password ≠ none)
    (hauth : m.auth = some d)
    (hstored : s.auth = .challenge a)
    (hok : a.check u.username "test" "REGISTER" d = true) :
    s.handle_REGISTER getUser m =
      .ok ({ s with regs := s.regs.register ⟨m.toUser, via.branch, 3600⟩ },
        [⟨200, m, none⟩]) ∧
    (∃ l, alookup (s.regs.register ⟨m.toUser, via.branch, 3600⟩) m.toUser = some l ∧
      (⟨m.toUser, via.branch, 3600⟩ : RUser) ∈ l) := by
  constructor
  · simp [SessionState.handle_REGISTER, hhdr, hvia, hu, hpw, hauth, hstored, hok,
      AuthField.isPyNone]
  · exact register_mem s.regs ⟨m.toUser, via.branch, 3600⟩

/-- Witness for the amended C4: a REGISTER carrying the digest computed
with the hardcoded credential `test` gets 200 and `bob` appears in the
Registration Directory. -/
theorem C4_register_hardcoded_credential_witness :
    SessionState.handle_REGISTER sampleGetUser sampleChallengedState sampleRegisterTestAuth =
      .ok ({ sampleChallengedState with
          regs := RegManager.register sampleChallengedState.regs ⟨"bob", some "br1", 3600⟩ },
        [⟨200, sampleRegisterTestAuth, none⟩]) ∧
    (∃ l, alookup (RegManager.register sampleChallengedState.regs ⟨"bob", some "br1", 3600⟩) "bob" =
        some l ∧ (⟨"bob", some "br1", 3600⟩ : RUser) ∈ l) :=
  C4_register_hardcoded_credential sampleGetUser sampleChallengedState sampleRegisterTestAuth
    ⟨some "br1"⟩ sampleUser sampleChallenge sampleTestDigest
    (by decide) (by decide) (by decide) (by decide) (by decide) (by decide) (by decide)

/-- C5: evaluation at the failing input. On the first REGISTER of a
session (`_auth` still the initial `[]`, i.e. no prior challenge) that
carries an Authorization header for a credentialed identity, the handler
does not respond 401 with a fresh challenge: since `[] == None` is false,
the dead `self._auth == None` guard is skipped and `[].check(...)` raises
`AttributeError`, which escapes the handler. -/
theorem C5_no_prior_challenge_with_auth_raises :
    SessionState.fresh.auth = .emptyList ∧
    SessionState.handle_REGISTER sampleGetUser SessionState.fresh sampleRegisterCredAuth =
      .error .attributeError := by
  decide

/-- C7 counterexample: a payload whose parsing fails does NOT make
`handle_io_in` return the payload length with no escalation — the
exception escapes the handler instead. -/
theorem C7_parse_error_counterexample :
    sampleParse [0] = .error ⟨0⟩ ∧
    SessionState.handle_io_in sampleParse sampleDispatch SessionState.fresh [0] =
      ⟨{ SessionState.fresh with bistream := [(.inbound, [0])] }, [], .raises ⟨0⟩⟩ ∧
    RetVal.raises ⟨0⟩ ≠ .returns ([0] : List Nat).length :=
  ⟨by simp [sampleParse], by decide, by decide⟩

/-- C7 as amended: when parsing the inbound payload fails, the payload is
still appended to the bistream trace, no response is sent — and the parse
exception propagates out of `handle_io_in` uncaught (the handler does not
return the payload length; the failure escalates past the session). -/
theorem C7_parse_error_propagates (parse : List Nat → Except ParseErr Msg)
    (dispatch : Msg → SessionState → SessionState × List Response)
    (s : SessionState) (data : List Nat) (e : ParseErr)
    (h : parse data = .error e) :
    SessionState.handle_io_in parse dispatch s data =
      ⟨{ s with bistream := s.bistream ++ [(.inbound, data)] }, [], .raises e⟩ := by
  unfold SessionState.handle_io_in
  rw [h]

/-- Witness for the amended C7 at the concrete failing payload. -/
theorem C7_parse_error_propagates_witness :
    SessionState.handle_io_in sampleParse sampleDispatch SessionState.fresh [0] =
      ⟨{ SessionState.fresh with
          bistream := SessionState.fresh.bistream ++ [(.inbound, [0])] }, [], .raises ⟨0⟩⟩ :=
  C7_parse_error_propagates sampleParse sampleDispatch SessionState.fresh [0] ⟨0⟩
    (by simp [sampleParse])

/-- Witness for C9 at a concrete trying call with window `[2, 5]` and the
lower-bound oracle. -/
theorem C9_pickup_delay_in_window_witness :
    ∃ d : Nat,
      sampleTryingCall.fireInviteTimer sampleRng =
        .ok ({ sampleTryingCall with state := .INVITE_RINGING, timer := some (d : ℚ) },
          [⟨180, sampleTryingCall.msg, none⟩]) ∧
      sampleUser.pickup_delay_min ≤ d ∧ d ≤ sampleUser.pickup_delay_max :=
  C9_pickup_delay_in_window sampleRng (fun a b h => ⟨Nat.le_refl a, h⟩)
    sampleTryingCall sampleUser rfl (by decide) (by decide)

end DionaeaSip
